import Mathlib

/-!
Verification of the time-series acquisition-with-fallback subsystem of
`src/app.py` (function `get_stock_prices`, lines 17-64) and the derived
series composition at line 252 (`msft_price_aud`).

Modelling choices (shallow embedding):
* Python floats are modelled as rationals (`ℚ`); every operation the code
  performs on them (addition, multiplication) is exact in `ℚ`.
* The external `yf.Ticker(...).history(...)` call is modelled by a
  `FetchOutcome` argument: either a list of closing prices (possibly empty,
  as an empty DataFrame) or an exception carrying a message.
* `np.random.seed(42)` followed by a sequence of `np.random.uniform` draws
  is modelled by a fixed function `u : ℕ → ℚ` giving the i-th standard
  uniform draw of the numpy global generator right after seeding with 42;
  `np.random.uniform(lo, hi)` at draw index `i` is `lo + u i * (hi - lo)`.
  Since the code reseeds with the constant 42 on every fallback, the same
  `u` governs every call, which is exactly what makes the fallback
  deterministic across repeated and interleaved calls.
* Raising an exception is modelled by `Except.error` carrying the message.
-/

/-- The `fallback_data` dict: keys `base_value` and `variation_range`. -/
structure FallbackData where
  base_value : ℚ
  variation_range : ℚ
deriving Repr, DecidableEq

/-- Outcome of the upstream `stock.history(period=period, interval="1mo")`
call: a list of monthly closing prices (oldest first, possibly empty), or an
exception with message `msg`. -/
inductive FetchOutcome where
  | ok (hist : List ℚ)
  | err (msg : String)
deriving Repr, DecidableEq

/-- An upstream failure: either the fetch raised, or it returned an empty
frame (which line 47 turns into `Exception("No data received from API")`). -/
def FetchOutcome.fails : FetchOutcome → Bool
  | .ok hist => hist.isEmpty
  | .err _ => true

/-- The `str(e)` of the exception that reaches the `except` block at
line 49: the fetch's own message, or the line-47 message for an empty
response. -/
def FetchOutcome.errMsg : FetchOutcome → String
  | .ok _ => "No data received from API"
  | .err m => m

/-- The tuple `(data_list, is_real_data, status_message)` returned by
`get_stock_prices`. -/
structure StockResult where
  data : List ℚ
  is_real : Bool
  status : String
deriving Repr, DecidableEq

/-- Python slice `l[-n:]`: the whole list when `n = 0`, otherwise the last
`min n l.length` elements. -/
def pyTakeLast (l : List ℚ) (n : ℕ) : List ℚ :=
  if n = 0 then l else l.drop (l.length - n)

/-- `np.random.uniform(lo, hi)` at draw index `i` of the stream `u` of
standard uniform draws. -/
def npUniform (u : ℕ → ℚ) (i : ℕ) (lo hi : ℚ) : ℚ :=
  lo + u i * (hi - lo)

/-- Python `s.endswith(sfx)`, modelled on the underlying character lists
(identical semantics; stated this way so it evaluates in the kernel). -/
def pyEndsWith (s sfx : String) : Bool :=
  sfx.data.isSuffixOf s.data

/-- Status string of line 41. -/
def successStatus (ticker : String) : String :=
  "✅ Real " ++ ticker ++ " data loaded successfully!"

/-- Status string of line 45. -/
def paddedStatus (ticker : String) : String :=
  "✅ Real " ++ ticker ++ " data loaded successfully! (padded)"

/-- Status string of line 61. -/
def failStatus (ticker e : String) : String :=
  "⚠️ Could not fetch real " ++ ticker ++ " data (" ++ e ++ "). Using simulated data."

/-- Message of the exception raised at line 64. -/
def fatalMsg (ticker e : String) : String :=
  "Failed to fetch " ++ ticker ++ " data: " ++ e

/-- The synthetic series built at lines 52-59: after `np.random.seed(42)`,
forex tickers (ending in `=X`) get `base_value + uniform(-v, v)` per point,
other tickers additionally get the drift `i * 2`. -/
def fallbackSeries (u : ℕ → ℚ) (ticker : String) (months_count : ℕ)
    (fb : FallbackData) : List ℚ :=
  if pyEndsWith ticker "=X" then
    (List.range months_count).map
      (fun i => fb.base_value + npUniform u i (-fb.variation_range) fb.variation_range)
  else
    (List.range months_count).map
      (fun i => fb.base_value + npUniform u i (-fb.variation_range) fb.variation_range
        + (i : ℚ) * 2)

/-- Body of the `except` block, lines 49-64: with a fallback dict, return
the synthetic series with `is_real = False` and the warning status; without
one, re-raise (line 64). -/
def handleFetchError (u : ℕ → ℚ) (ticker : String) (months_count : ℕ)
    (e : String) (fallback_data : Option FallbackData) : Except String StockResult :=
  match fallback_data with
  | some fb =>
      Except.ok ⟨fallbackSeries u ticker months_count fb, false, failStatus ticker e⟩
  | none => Except.error (fatalMsg ticker e)

/-- `get_stock_prices(ticker, months_count, period, fallback_data)` of
lines 17-64, with the upstream call abstracted into `fetch` and the
post-seed-42 uniform stream into `u`.  The `period` argument is only
forwarded to the upstream call and so does not appear. -/
def get_stock_prices (u : ℕ → ℚ) (ticker : String) (months_count : ℕ)
    (fetch : FetchOutcome) (fallback_data : Option FallbackData) :
    Except String StockResult :=
  match fetch with
  | FetchOutcome.err e => handleFetchError u ticker months_count e fallback_data
  | FetchOutcome.ok hist =>
      if hist.isEmpty then
        handleFetchError u ticker months_count "No data received from API" fallback_data
      else if months_count ≤ hist.length then
        Except.ok ⟨pyTakeLast hist months_count, true, successStatus ticker⟩
      else
        Except.ok ⟨hist ++ List.replicate (months_count - hist.length) (hist.getLastD 0),
          true, paddedStatus ticker⟩

/-- Line 252: `msft_price_aud = [p * r for p, r in zip(msft_price, usd_aud_rate)]`.
Python `zip` stops at the shorter input. -/
def msft_price_aud (msft_price usd_aud_rate : List ℚ) : List ℚ :=
  (msft_price.zip usd_aud_rate).map (fun p => p.1 * p.2)

/-! Helper lemmas. -/

lemma pyTakeLast_length (l : List ℚ) (n : ℕ) (hn : n ≠ 0) (hle : n ≤ l.length) :
    (pyTakeLast l n).length = n := by
  simp [pyTakeLast, hn]
  omega

lemma fallbackSeries_length (u : ℕ → ℚ) (ticker : String) (mc : ℕ)
    (fb : FallbackData) : (fallbackSeries u ticker mc fb).length = mc := by
  unfold fallbackSeries
  by_cases h : pyEndsWith ticker "=X" <;> simp [h]

lemma msft_price_aud_length (a b : List ℚ) :
    (msft_price_aud a b).length = min a.length b.length := by
  simp [msft_price_aud]

/-! Claim theorems. -/

/-- C1: for every request with a positive `point_count` (`months_count`), on
every path of the acquisition (real data with enough points, real data
padded, or simulated fallback) on which a result is returned, the returned
series has length exactly `months_count`. -/
theorem C1_length_invariant (u : ℕ → ℚ) (ticker : String) (mc : ℕ)
    (fetch : FetchOutcome) (fb : Option FallbackData) (hmc : 0 < mc)
    (r : StockResult) (hr : get_stock_prices u ticker mc fetch fb = Except.ok r) :
    r.data.length = mc := by
  cases fetch with
  | err e =>
    cases fb with
    | none => simp [get_stock_prices, handleFetchError] at hr
    | some s =>
      simp [get_stock_prices, handleFetchError] at hr
      rw [← hr]
      simp [fallbackSeries_length]
  | ok hist =>
    by_cases he : hist.isEmpty
    · cases fb with
      | none => simp [get_stock_prices, handleFetchError, he] at hr
      | some s =>
        simp [get_stock_prices, handleFetchError, he] at hr
        rw [← hr]
        simp [fallbackSeries_length]
    · by_cases hlen : mc ≤ hist.length
      · simp [get_stock_prices, he, hlen] at hr
        rw [← hr]
        exact pyTakeLast_length hist mc (by omega) hlen
      · simp [get_stock_prices, he, hlen] at hr
        rw [← hr]
        simp
        omega

/-- Witness for C1: a concrete fallback-path acquisition of one point. -/
theorem C1_length_invariant_witness :
    0 < 1 ∧
    get_stock_prices (fun _ => 0) "MSFT" 1 (FetchOutcome.err "boom") (some ⟨350, 50⟩) =
      Except.ok ⟨[300], false, failStatus "MSFT" "boom"⟩ ∧
    (⟨[300], false, failStatus "MSFT" "boom"⟩ : StockResult).data.length = 1 :=
  ⟨by decide,
   by simp [get_stock_prices, handleFetchError, fallbackSeries, npUniform, List.range_succ]
      norm_num,
   C1_length_invariant (fun _ => 0) "MSFT" 1 (FetchOutcome.err "boom") (some ⟨350, 50⟩)
     (by decide) _
     (by simp [get_stock_prices, handleFetchError, fallbackSeries, npUniform, List.range_succ]
         norm_num)⟩

/-- C2 counterexample: composing a 12-element series with a 10-element
series does not raise any error; it returns a result, of length 10, the
longer input's extra elements silently dropped. -/
theorem C2_counterexample :
    (msft_price_aud (List.replicate 12 (1 : ℚ)) (List.replicate 10 (2 : ℚ))).length = 10 ∧
    (msft_price_aud (List.replicate 12 (1 : ℚ)) (List.replicate 10 (2 : ℚ))).length ≠ 12 := by
  rw [msft_price_aud_length]
  simp

/-- C2 (amended): `msft_price_aud` on two length-12 series returns length
12; on lengths 12 and 10 it returns length 10 (the shorter), raising no
error. -/
theorem C2_composer_length_guard (a b c d : List ℚ)
    (hab : a.length = 12 ∧ b.length = 12) (hcd : c.length = 12 ∧ d.length = 10) :
    (msft_price_aud a b).length = 12 ∧ (msft_price_aud c d).length = 10 := by
  rw [msft_price_aud_length, msft_price_aud_length, hab.1, hab.2, hcd.1, hcd.2]
  simp

/-- Witness for C2 (amended), on concrete replicate lists. -/
theorem C2_composer_length_guard_witness :
    ((List.replicate 12 (1 : ℚ)).length = 12 ∧ (List.replicate 12 (3 : ℚ)).length = 12) ∧
    ((List.replicate 12 (1 : ℚ)).length = 12 ∧ (List.replicate 10 (2 : ℚ)).length = 10) ∧
    ((msft_price_aud (List.replicate 12 (1 : ℚ)) (List.replicate 12 (3 : ℚ))).length = 12 ∧
      (msft_price_aud (List.replicate 12 (1 : ℚ)) (List.replicate 10 (2 : ℚ))).length = 10) :=
  ⟨⟨by decide, by decide⟩, ⟨by decide, by decide⟩,
   C2_composer_length_guard (List.replicate 12 (1 : ℚ)) (List.replicate 12 (3 : ℚ))
     (List.replicate 12 (1 : ℚ)) (List.replicate 10 (2 : ℚ))
     ⟨by decide, by decide⟩ ⟨by decide, by decide⟩⟩

/-- C9: composing any two series returns a series of length
`min (len a) (len b)` — on mismatched lengths the longer input's extra
elements are silently dropped, and no error is raised for any inputs (the
composition is a total function). -/
theorem C9_compose_min_length (a b : List ℚ) :
    (msft_price_aud a b).length = min a.length b.length :=
  msft_price_aud_length a b

lemma get_stock_prices_fails (u : ℕ → ℚ) (ticker : String) (mc : ℕ)
    (fetch : FetchOutcome) (spec : FallbackData) (h : fetch.fails = true) :
    get_stock_prices u ticker mc fetch (some spec) =
      Except.ok ⟨fallbackSeries u ticker mc spec, false,
        failStatus ticker fetch.errMsg⟩ := by
  cases fetch with
  | err e => rfl
  | ok hist =>
    have he : hist.isEmpty = true := h
    simp [get_stock_prices, handleFetchError, he, FetchOutcome.errMsg]

lemma get_stock_prices_ok_nonempty (u : ℕ → ℚ) (ticker : String) (mc : ℕ)
    (hist : List ℚ) (fb : Option FallbackData) (hne : hist.isEmpty = false) :
    get_stock_prices u ticker mc (FetchOutcome.ok hist) fb =
      (if mc ≤ hist.length then
        Except.ok ⟨pyTakeLast hist mc, true, successStatus ticker⟩
      else
        Except.ok ⟨hist ++ List.replicate (mc - hist.length) (hist.getLastD 0),
          true, paddedStatus ticker⟩) := by
  simp [get_stock_prices, hne]

/-- C3: whenever `fallback_data` is present the function never raises: for
every fetch outcome the caller receives a result, and every upstream failure
(empty response or exception) is converted into the synthetic series with
`is_real = false` and a status message embedding the failure cause. -/
theorem C3_failures_absorbed (u : ℕ → ℚ) (ticker : String) (mc : ℕ)
    (fetch : FetchOutcome) (spec : FallbackData) :
    (∃ r, get_stock_prices u ticker mc fetch (some spec) = Except.ok r) ∧
    (fetch.fails = true →
      get_stock_prices u ticker mc fetch (some spec) =
        Except.ok ⟨fallbackSeries u ticker mc spec, false,
          failStatus ticker fetch.errMsg⟩) := by
  refine ⟨?_, get_stock_prices_fails u ticker mc fetch spec⟩
  cases fetch with
  | err e => exact ⟨_, rfl⟩
  | ok hist =>
    by_cases he : hist.isEmpty
    · exact ⟨_, get_stock_prices_fails u ticker mc (FetchOutcome.ok hist) spec he⟩
    · rw [get_stock_prices_ok_nonempty u ticker mc hist (some spec) (by simpa using he)]
      by_cases hlen : mc ≤ hist.length <;> simp [hlen]

/-- Witness for C3: an empty upstream response with a fallback present is
absorbed into a concrete simulated two-point forex series. -/
theorem C3_failures_absorbed_witness :
    get_stock_prices (fun _ => 0) "USDAUD=X" 2 (FetchOutcome.ok []) (some ⟨29/20, 3/20⟩) =
      Except.ok ⟨[13/10, 13/10], false,
        failStatus "USDAUD=X" "No data received from API"⟩ := by
  have h := (C3_failures_absorbed (fun _ => 0) "USDAUD=X" 2 (FetchOutcome.ok [])
    ⟨29/20, 3/20⟩).2 (by decide)
  rw [h]
  simp [fallbackSeries, npUniform, List.range_succ, FetchOutcome.errMsg,
    show pyEndsWith "USDAUD=X" "=X" = true from by decide]
  norm_num

/-- C4: if the upstream source returns `k` observations with
`1 ≤ k < months_count`, the result is the `k` real observations followed by
`months_count - k` copies of the final observed value, with
`is_real = true` and the padded-success status — regardless of any
fallback data. -/
theorem C4_padding (u : ℕ → ℚ) (ticker : String) (mc : ℕ) (hist : List ℚ)
    (fb : Option FallbackData) (hne : hist ≠ []) (hlt : hist.length < mc) :
    get_stock_prices u ticker mc (FetchOutcome.ok hist) fb =
      Except.ok ⟨hist ++ List.replicate (mc - hist.length) (hist.getLast hne),
        true, paddedStatus ticker⟩ := by
  rw [get_stock_prices_ok_nonempty u ticker mc hist fb (by simpa using hne),
    if_neg (by omega)]
  have hd : hist.getLastD 0 = hist.getLast hne := by
    rw [List.getLastD_eq_getLast?, List.getLast?_eq_getLast hist hne]
    rfl
  rw [hd]

/-- Witness for C4: two real observations padded out to four points. -/
theorem C4_padding_witness :
    ([(5 : ℚ), 7] ≠ []) ∧ (([(5 : ℚ), 7]).length < 4) ∧
    get_stock_prices (fun _ => 0) "MSFT" 4 (FetchOutcome.ok [(5 : ℚ), 7]) none =
      Except.ok ⟨[5, 7, 7, 7], true, paddedStatus "MSFT"⟩ := by
  refine ⟨by decide, by decide, ?_⟩
  have h := C4_padding (fun _ => 0) "MSFT" 4 [(5 : ℚ), 7] none (by decide) (by decide)
  rw [h]
  norm_num [List.getLast, List.replicate]

/-- C5: two invocations that both take the fallback path (any two failing
fetch outcomes, e.g. different exceptions or an empty response) with
identical `(ticker, months_count, fallback_data)` produce bit-identical
series — the synthesis depends only on those inputs and the fixed
post-seed-42 draw stream. -/
theorem C5_fallback_determinism (u : ℕ → ℚ) (ticker : String) (mc : ℕ)
    (spec : FallbackData) (f1 f2 : FetchOutcome)
    (h1 : FetchOutcome.fails f1 = true) (h2 : FetchOutcome.fails f2 = true)
    (r1 r2 : StockResult)
    (e1 : get_stock_prices u ticker mc f1 (some spec) = Except.ok r1)
    (e2 : get_stock_prices u ticker mc f2 (some spec) = Except.ok r2) :
    r1.data = r2.data := by
  rw [get_stock_prices_fails u ticker mc f1 spec h1] at e1
  rw [get_stock_prices_fails u ticker mc f2 spec h2] at e2
  cases e1
  cases e2
  rfl

/-- Witness for C5: an exception and an empty response yield the same
one-point simulated series. -/
theorem C5_fallback_determinism_witness :
    FetchOutcome.fails (FetchOutcome.err "timeout") = true ∧
    FetchOutcome.fails (FetchOutcome.ok []) = true ∧
    get_stock_prices (fun _ => 0) "MSFT" 1 (FetchOutcome.err "timeout") (some ⟨350, 50⟩) =
      Except.ok ⟨[300], false, failStatus "MSFT" "timeout"⟩ ∧
    get_stock_prices (fun _ => 0) "MSFT" 1 (FetchOutcome.ok []) (some ⟨350, 50⟩) =
      Except.ok ⟨[300], false, failStatus "MSFT" "No data received from API"⟩ ∧
    (⟨[300], false, failStatus "MSFT" "timeout"⟩ : StockResult).data =
      (⟨[300], false, failStatus "MSFT" "No data received from API"⟩ : StockResult).data := by
  have ha : get_stock_prices (fun _ => 0) "MSFT" 1 (FetchOutcome.err "timeout")
      (some ⟨350, 50⟩) = Except.ok ⟨[300], false, failStatus "MSFT" "timeout"⟩ := by
    simp [get_stock_prices, handleFetchError, fallbackSeries, npUniform, List.range_succ,
      show pyEndsWith "MSFT" "=X" = false from by decide]
    norm_num
  have hb : get_stock_prices (fun _ => 0) "MSFT" 1 (FetchOutcome.ok [])
      (some ⟨350, 50⟩) = Except.ok ⟨[300], false,
        failStatus "MSFT" "No data received from API"⟩ := by
    simp [get_stock_prices, handleFetchError, fallbackSeries, npUniform, List.range_succ,
      show pyEndsWith "MSFT" "=X" = false from by decide]
    norm_num
  exact ⟨by decide, by decide, ha, hb,
    C5_fallback_determinism (fun _ => 0) "MSFT" 1 ⟨350, 50⟩
      (FetchOutcome.err "timeout") (FetchOutcome.ok []) (by decide) (by decide)
      _ _ ha hb⟩

lemma fallbackSeries_getD (u : ℕ → ℚ) (ticker : String) (mc : ℕ)
    (fb : FallbackData) (i : ℕ) (hi : i < mc) :
    (fallbackSeries u ticker mc fb).getD i 0 =
      fb.base_value + npUniform u i (-fb.variation_range) fb.variation_range +
        (if pyEndsWith ticker "=X" then 0 else (i : ℚ) * 2) := by
  unfold fallbackSeries
  by_cases h : pyEndsWith ticker "=X" <;>
    simp [h, List.getD_eq_getElem?_getD, List.getElem?_map, List.getElem?_range, hi]

/-- C6: on the fallback path, element `i` of the synthetic series is
`base_value + uniform(-variation_range, variation_range)` with no drift for
a currency-pair symbol (trailing `=X`), and the same plus `i * 2` (the
constant drift step 2) for any other symbol. -/
theorem C6_synthesis_formula (u : ℕ → ℚ) (ticker : String) (mc : ℕ)
    (spec : FallbackData) (e : String) (i : ℕ) (hi : i < mc) (r : StockResult)
    (hr : get_stock_prices u ticker mc (FetchOutcome.err e) (some spec) = Except.ok r) :
    r.data.getD i 0 =
      spec.base_value + npUniform u i (-spec.variation_range) spec.variation_range +
        (if pyEndsWith ticker "=X" then 0 else (i : ℚ) * 2) := by
  rw [get_stock_prices_fails u ticker mc (FetchOutcome.err e) spec rfl] at hr
  cases hr
  exact fallbackSeries_getD u ticker mc spec i hi

/-- Witness for C6: a concrete two-point forex fallback, inspected at
index 1. -/
theorem C6_synthesis_formula_witness :
    (1 < 2) ∧
    get_stock_prices (fun _ => 1/2) "USDAUD=X" 2 (FetchOutcome.err "down")
        (some ⟨29/20, 3/20⟩) =
      Except.ok ⟨[29/20, 29/20], false, failStatus "USDAUD=X" "down"⟩ ∧
    (⟨[29/20, 29/20], false, failStatus "USDAUD=X" "down"⟩ : StockResult).data.getD 1 0 =
      29/20 + npUniform (fun _ => 1/2) 1 (-(3/20)) (3/20) +
        (if pyEndsWith "USDAUD=X" "=X" then 0 else (1 : ℚ) * 2) := by
  have hr : get_stock_prices (fun _ => 1/2) "USDAUD=X" 2 (FetchOutcome.err "down")
      (some ⟨29/20, 3/20⟩) =
      Except.ok ⟨[29/20, 29/20], false, failStatus "USDAUD=X" "down"⟩ := by
    simp [get_stock_prices, handleFetchError, fallbackSeries, npUniform, List.range_succ,
      show pyEndsWith "USDAUD=X" "=X" = true from by decide]
    norm_num
  exact ⟨by decide, hr,
    C6_synthesis_formula (fun _ => 1/2) "USDAUD=X" 2 ⟨29/20, 3/20⟩ "down" 1
      (by decide) _ hr⟩

/-- C7: the fixed scenario — symbol MSFT, 12 points, fallback base 350 and
range 50, failing upstream — returns `is_real = false`, exactly 12
elements with element `i` in `[300 + 2i, 400 + 2i]` (given the standard
uniform draws lie in `[0, 1)`), and the simulated-data status message. -/
theorem C7_msft_scenario (u : ℕ → ℚ) (hu : ∀ i, 0 ≤ u i ∧ u i < 1) (e : String)
    (r : StockResult)
    (hr : get_stock_prices u "MSFT" 12 (FetchOutcome.err e) (some ⟨350, 50⟩) =
      Except.ok r) :
    r.is_real = false ∧ r.data.length = 12 ∧
    (∀ i : ℕ, i < 12 →
      300 + 2 * (i : ℚ) ≤ r.data.getD i 0 ∧ r.data.getD i 0 ≤ 400 + 2 * (i : ℚ)) ∧
    r.status = failStatus "MSFT" e := by
  rw [get_stock_prices_fails u "MSFT" 12 (FetchOutcome.err e) ⟨350, 50⟩ rfl] at hr
  cases hr
  refine ⟨rfl, fallbackSeries_length u "MSFT" 12 ⟨350, 50⟩, ?_, rfl⟩
  intro i hi
  rw [show (⟨fallbackSeries u "MSFT" 12 ⟨350, 50⟩, false,
    failStatus "MSFT" (FetchOutcome.err e).errMsg⟩ : StockResult).data =
    fallbackSeries u "MSFT" 12 ⟨350, 50⟩ from rfl]
  rw [fallbackSeries_getD u "MSFT" 12 ⟨350, 50⟩ i hi]
  simp [npUniform, show pyEndsWith "MSFT" "=X" = false from by decide]
  have h1 := (hu i).1
  have h2 := (hu i).2
  constructor <;> nlinarith [h1, h2]

/-- Witness for C7: with all draws at 0 the series is 300, 302, ..., 322;
inspected at index 3 the bounds 306 ≤ 306 ≤ 406 hold. -/
theorem C7_msft_scenario_witness :
    get_stock_prices (fun _ => 0) "MSFT" 12 (FetchOutcome.err "down") (some ⟨350, 50⟩) =
      Except.ok ⟨[300, 302, 304, 306, 308, 310, 312, 314, 316, 318, 320, 322], false,
        failStatus "MSFT" "down"⟩ ∧
    (⟨[300, 302, 304, 306, 308, 310, 312, 314, 316, 318, 320, 322], false,
        failStatus "MSFT" "down"⟩ : StockResult).is_real = false ∧
    (⟨[300, 302, 304, 306, 308, 310, 312, 314, 316, 318, 320, 322], false,
        failStatus "MSFT" "down"⟩ : StockResult).data.length = 12 ∧
    (300 + 2 * ((3 : ℕ) : ℚ) ≤
        (⟨[300, 302, 304, 306, 308, 310, 312, 314, 316, 318, 320, 322], false,
          failStatus "MSFT" "down"⟩ : StockResult).data.getD 3 0 ∧
      (⟨[300, 302, 304, 306, 308, 310, 312, 314, 316, 318, 320, 322], false,
          failStatus "MSFT" "down"⟩ : StockResult).data.getD 3 0 ≤ 400 + 2 * ((3 : ℕ) : ℚ)) ∧
    (⟨[300, 302, 304, 306, 308, 310, 312, 314, 316, 318, 320, 322], false,
        failStatus "MSFT" "down"⟩ : StockResult).status = failStatus "MSFT" "down" := by
  have hr : get_stock_prices (fun _ => 0) "MSFT" 12 (FetchOutcome.err "down")
      (some ⟨350, 50⟩) =
      Except.ok ⟨[300, 302, 304, 306, 308, 310, 312, 314, 316, 318, 320, 322], false,
        failStatus "MSFT" "down"⟩ := by
    simp [get_stock_prices, handleFetchError, fallbackSeries, npUniform, List.range_succ,
      show pyEndsWith "MSFT" "=X" = false from by decide]
    norm_num
  have h7 := C7_msft_scenario (fun _ => 0)
    (fun _ => ⟨le_refl 0, by norm_num⟩) "down" _ hr
  exact ⟨hr, h7.1, h7.2.1, h7.2.2.1 3 (by norm_num), h7.2.2.2⟩

/-- C8: with no fallback data, any upstream failure (exception or empty
response) makes the function raise the fatal acquisition error embedding
the cause; no partial series is produced. -/
theorem C8_fatal_without_fallback (u : ℕ → ℚ) (ticker : String) (mc : ℕ)
    (fetch : FetchOutcome) (h : FetchOutcome.fails fetch = true) :
    get_stock_prices u ticker mc fetch none =
      Except.error (fatalMsg ticker fetch.errMsg) := by
  cases fetch with
  | err e => rfl
  | ok hist =>
    have he : hist.isEmpty = true := h
    simp [get_stock_prices, handleFetchError, he, FetchOutcome.errMsg]

/-- Witness for C8: a concrete failing fetch with no fallback raises. -/
theorem C8_fatal_without_fallback_witness :
    FetchOutcome.fails (FetchOutcome.err "down") = true ∧
    get_stock_prices (fun _ => 0) "MSFT" 12 (FetchOutcome.err "down") none =
      Except.error (fatalMsg "MSFT" "down") :=
  ⟨by decide,
   C8_fatal_without_fallback (fun _ => 0) "MSFT" 12 (FetchOutcome.err "down") (by decide)⟩

/-- C10: when the upstream fetch succeeds with a non-empty response, the
result is independent of the fallback data: two calls differing only in
`fallback_data` observe identical results. -/
theorem C10_fallback_noninterference (u : ℕ → ℚ) (ticker : String) (mc : ℕ)
    (hist : List ℚ) (fb1 fb2 : Option FallbackData) (hne : hist ≠ []) :
    get_stock_prices u ticker mc (FetchOutcome.ok hist) fb1 =
      get_stock_prices u ticker mc (FetchOutcome.ok hist) fb2 := by
  rw [get_stock_prices_ok_nonempty u ticker mc hist fb1 (by simpa using hne),
    get_stock_prices_ok_nonempty u ticker mc hist fb2 (by simpa using hne)]

/-- Witness for C10: one real data point, fallback absent vs. present. -/
theorem C10_fallback_noninterference_witness :
    ([(7 : ℚ)] ≠ []) ∧
    get_stock_prices (fun _ => 0) "MSFT" 1 (FetchOutcome.ok [(7 : ℚ)]) none =
      get_stock_prices (fun _ => 0) "MSFT" 1 (FetchOutcome.ok [(7 : ℚ)])
        (some ⟨350, 50⟩) :=
  ⟨by decide,
   C10_fallback_noninterference (fun _ => 0) "MSFT" 1 [(7 : ℚ)] none
     (some ⟨350, 50⟩) (by decide)⟩
